import Mathlib

/-!
Verification of the quantitative health-scoring core of the LongevityHackBE
repository: the deterministic biomarker scorer (`nodes/longevity_calculator.py`),
the study-based longevity score calculator (`db/biomarkers/longevity_score.py`)
and the PhenoAge engine (`nodes/phenoage_calculator.py`).

Modelling conventions:
* Python floats are modelled as exact rationals (`ℚ`).  Binary floating point
  representation effects are out of scope; all counterexamples below are chosen
  away from rounding ties so that the exact-rational model and the float code
  agree.
* The transcendental library functions `math.exp`, `math.log` and `math.pow`
  cannot be computed exactly; they are abstracted by an `Analytic` record of
  rational-valued functions.  Every theorem quantifies over the record (so it
  holds in particular for the true functions); counterexamples instantiate it
  with explicit tables that are consistent with a genuine monotone logarithm
  or exponential where that matters.
* Python operations that can raise (`math.log` on a non-positive argument,
  `math.pow` on a negative base with fractional exponent or zero base with
  negative exponent, float division by zero, missing dictionary keys) are
  modelled with `Except String`; an `Except.error` value models the raised
  exception.
* A dictionary entry that is absent and an entry that is present with value
  `None` are both modelled as `Option.none`: every code path relevant to the
  claims treats the two identically (`k not in d or d[k] is None` checks, and
  `dict.get` truthiness tests).
-/

/-! ### Generic helpers: checked arithmetic, rounding, stable sorting, strings -/

/-- Abstraction of the `math` library: rational-valued stand-ins for
`math.exp`, `math.log` (on positive arguments) and `math.pow` (on its domain).
All theorems below quantify over this record. -/
structure Analytic where
  exp : ℚ → ℚ
  log : ℚ → ℚ
  pow : ℚ → ℚ → ℚ

/-- `math.log x` raises `ValueError: math domain error` unless `0 < x`. -/
def checkedLog (A : Analytic) (x : ℚ) : Except String ℚ :=
  if 0 < x then .ok (A.log x) else .error "math domain error"

/-- Python float division raises `ZeroDivisionError` on a zero divisor. -/
def checkedDiv (x y : ℚ) : Except String ℚ :=
  if y = 0 then .error "float division by zero" else .ok (x / y)

/-- `math.pow x y` raises `ValueError` for a negative base with a
non-integral exponent, and for a zero base with a negative exponent. -/
def checkedPow (A : Analytic) (x y : ℚ) : Except String ℚ :=
  if x < 0 ∧ y.den ≠ 1 then .error "math domain error"
  else if x = 0 ∧ y < 0 then .error "math domain error"
  else .ok (A.pow x y)

/-- Round to the nearest integer, ties to even: the rounding mode of
Python `round`. -/
def roundHalfEven (q : ℚ) : ℤ :=
  let f := ⌊q⌋
  let r := q - (f : ℚ)
  if r < 1/2 then f
  else if 1/2 < r then f + 1
  else if f % 2 = 0 then f else f + 1

/-- Python `round(x, 2)` on the exact-rational model. -/
def round2 (q : ℚ) : ℚ := (roundHalfEven (q * 100) : ℚ) / 100

/-- Python `round(x, 1)` on the exact-rational model. -/
def round1 (q : ℚ) : ℚ := (roundHalfEven (q * 10) : ℚ) / 10

/-- Python `int(x)` on a float truncates toward zero. -/
def truncInt (q : ℚ) : ℤ := q.num.tdiv (q.den : ℤ)

/-- Insert `x` into `acc` after every element `y` with `le y x`;
the building block of a stable sort. -/
def insort (le : α → α → Bool) (x : α) : List α → List α
  | [] => [x]
  | y :: ys => if le y x then y :: insort le x ys else x :: y :: ys

/-- Stable sort (model of Python `sorted` / `list.sort`, which are stable):
elements are inserted in input order, each after all existing elements that
compare `le` to it, so ties keep their input order. -/
def stableSort (le : α → α → Bool) (l : List α) : List α :=
  l.foldl (fun acc x => insort le x acc) []

/-- Membership is preserved by `insort`. -/
theorem mem_insort (le : α → α → Bool) (x : α) (l : List α) (a : α) :
    a ∈ insort le x l ↔ a = x ∨ a ∈ l := by
  induction l with
  | nil => simp [insort]
  | cons y ys ih =>
    simp only [insort]
    by_cases h : le y x = true
    · simp only [if_pos h, List.mem_cons, ih]
      tauto
    · simp only [if_neg h, List.mem_cons]

/-- Membership is preserved by `stableSort`. -/
theorem mem_stableSort (le : α → α → Bool) (l : List α) (a : α) :
    a ∈ stableSort le l ↔ a ∈ l := by
  suffices h : ∀ acc : List α, a ∈ l.foldl (fun acc x => insort le x acc) acc ↔ a ∈ acc ∨ a ∈ l by
    have := h []
    simpa [stableSort] using this
  induction l with
  | nil => simp
  | cons x xs ih =>
    intro acc
    simp only [List.foldl_cons]
    rw [ih (insort le x acc), mem_insort]
    simp
    tauto

/-- Lower-case a name, character by character (model of `str.lower`). -/
def lowerName (s : List Char) : List Char := s.map Char.toLower

/-- Strip leading and trailing whitespace (model of `str.strip`). -/
def stripName (s : List Char) : List Char :=
  ((s.dropWhile Char.isWhitespace).reverse.dropWhile Char.isWhitespace).reverse

/-- Boolean list-prefix test. -/
def isPrefixB : List Char → List Char → Bool
  | [], _ => true
  | _ :: _, [] => false
  | a :: as, b :: bs => a == b && isPrefixB as bs

/-- Boolean substring test (model of the Python `in` operator on strings). -/
def isSubstrB (pat : List Char) : List Char → Bool
  | [] => isPrefixB pat []
  | c :: cs => isPrefixB pat (c :: cs) || isSubstrB pat cs

/-- Split into whitespace-separated words, dropping empty pieces
(model of `str.split` with no argument). -/
def splitWordsAux : List Char → List Char → List (List Char)
  | [], acc => if acc.isEmpty then [] else [acc.reverse]
  | c :: cs, acc =>
    if c.isWhitespace then
      if acc.isEmpty then splitWordsAux cs [] else acc.reverse :: splitWordsAux cs []
    else splitWordsAux cs (c :: acc)

/-- Split a name into its whitespace-separated words. -/
def splitWords (s : List Char) : List (List Char) := splitWordsAux s []

/-- Deduplicate, keeping first occurrences (model of building a Python `set`,
used only for cardinality computations where order is irrelevant). -/
def nubAux : List (List Char) → List (List Char) → List (List Char)
  | [], _ => []
  | w :: ws, seen => if seen.contains w then nubAux ws seen else w :: nubAux ws (w :: seen)

/-- Distinct words of a list. -/
def nubW (l : List (List Char)) : List (List Char) := nubAux l []

/-- Python truthiness of an optional float: `None`, missing and `0` are falsy. -/
def truthy (o : Option ℚ) : Bool :=
  match o with
  | none => false
  | some x => decide (x ≠ 0)

/-- Python `x or d` for an optional float `x`: the default replaces both
`None` and `0`. -/
def orDefault (o : Option ℚ) (d : ℚ) : ℚ :=
  match o with
  | none => d
  | some x => if x = 0 then d else x

/-! ### `nodes/longevity_calculator.py`: the deterministic scorer -/

/-- One entry of `BIOMARKER_RANGES` (unit and description strings omitted:
they are display-only). -/
structure BRange where
  optimal_low : ℚ
  optimal_high : ℚ
  acceptable_low : ℚ
  acceptable_high : ℚ
  weight : ℚ
  higher_better : Bool := false

/-- The static `BIOMARKER_RANGES` catalog, as a lookup from biomarker name. -/
def BIOMARKER_RANGES (name : List Char) : Option BRange :=
  if name == "glucose".toList then
    some { optimal_low := 70, optimal_high := 85, acceptable_low := 65, acceptable_high := 100, weight := 10 }
  else if name == "hba1c".toList then
    some { optimal_low := 4.5, optimal_high := 5.4, acceptable_low := 4.0, acceptable_high := 5.7, weight := 12 }
  else if name == "ldl".toList then
    some { optimal_low := 50, optimal_high := 100, acceptable_low := 40, acceptable_high := 130, weight := 10 }
  else if name == "hdl".toList then
    some { optimal_low := 60, optimal_high := 90, acceptable_low := 40, acceptable_high := 100, weight := 8, higher_better := true }
  else if name == "triglycerides".toList then
    some { optimal_low := 50, optimal_high := 100, acceptable_low := 40, acceptable_high := 150, weight := 8 }
  else if name == "crp".toList then
    some { optimal_low := 0, optimal_high := 1, acceptable_low := 0, acceptable_high := 3, weight := 9 }
  else if name == "vitamin_d".toList then
    some { optimal_low := 40, optimal_high := 60, acceptable_low := 30, acceptable_high := 80, weight := 7, higher_better := true }
  else if name == "insulin".toList then
    some { optimal_low := 2, optimal_high := 5, acceptable_low := 1, acceptable_high := 10, weight := 9 }
  else if name == "blood_pressure_systolic".toList then
    some { optimal_low := 110, optimal_high := 120, acceptable_low := 100, acceptable_high := 130, weight := 7 }
  else if name == "blood_pressure_diastolic".toList then
    some { optimal_low := 70, optimal_high := 80, acceptable_low := 60, acceptable_high := 85, weight := 7 }
  else none

/-- Body of `calculate_biomarker_score` once the catalog entry is fetched.
The divisions are the exact divisions of the source; `checkedDiv` records
that Python float division raises on a zero divisor. -/
def scoreWithRanges (ranges : BRange) (value : ℚ) : Except String ℚ :=
  if ranges.optimal_low ≤ value ∧ value ≤ ranges.optimal_high then .ok 100
  else if value < ranges.optimal_low then
    if ranges.acceptable_low ≤ value then do
      let q ← checkedDiv (ranges.optimal_low - value) (ranges.optimal_low - ranges.acceptable_low)
      .ok (max (100 - q * 30) 70)
    else do
      let q ← checkedDiv (ranges.acceptable_low - value) ranges.acceptable_low
      .ok (max (30 - min (q * 50) 70) 0)
  else if ranges.optimal_high < value then
    if value ≤ ranges.acceptable_high then do
      let q ← checkedDiv (value - ranges.optimal_high) (ranges.acceptable_high - ranges.optimal_high)
      .ok (max (100 - q * 30) 70)
    else do
      let q ← checkedDiv (value - ranges.acceptable_high) ranges.acceptable_high
      .ok (max (30 - min (q * 50) 70) 0)
  else .ok 50

/-- `calculate_biomarker_score(value, biomarker)`: 0-100 score for a single
biomarker value; unknown biomarkers get the neutral score 50. -/
def calculate_biomarker_score (value : ℚ) (biomarker : List Char) : Except String ℚ :=
  match BIOMARKER_RANGES biomarker with
  | none => .ok 50
  | some ranges => scoreWithRanges ranges value

/-! ### `db/biomarkers/longevity_score.py`: the study-based calculator -/

/-- `population` sub-record of a study; all three fields are optional in the
evidence database. -/
structure Population where
  n_subjects : Option ℚ
  n_deaths : Option ℚ
  follow_up_years : Option ℚ

/-- `optimal_value` sub-record of a study (unit string omitted: display-only). -/
structure OptimalValue where
  otype : List Char
  range_low : Option ℚ := none
  range_high : Option ℚ := none
  value : Option ℚ := none
  direction : Option (List Char) := none

/-- One study record of the evidence database. -/
structure Study where
  biomarker_name : List Char
  hazard_ratio : ℚ
  effect_magnitude : ℚ
  effect_direction : List Char
  optimal_value : Option OptimalValue
  population : Population

/-- One biomarker entry of the evidence database. -/
structure BiomarkerData where
  category : List Char
  max_effect_magnitude : ℚ
  best_study : Option Study
  all_studies : List Study

/-- The loaded evidence database `db['biomarkers']`: an ordered association
list from biomarker name to its data (iteration order matters for the
word-overlap matching loop). -/
def Db := List (List Char × BiomarkerData)

/-- Dictionary lookup `db['biomarkers'][name]`. -/
def dbLookup (db : Db) (name : List Char) : Option BiomarkerData :=
  (List.find? (fun kv => kv.1 == name) db).map (fun kv => kv.2)

/-- `_normalize_name`: exact case-insensitive match first, then word-overlap
scoring with threshold 1/2 (strictly improving matches win; first key wins
ties). -/
def normalize_name (db : Db) (name : List Char) : Option (List Char) :=
  let name_lower := stripName (lowerName name)
  match List.find? (fun kv => name_lower == lowerName kv.1) db with
  | some kv => some kv.1
  | none =>
    let name_words := splitWords name_lower
    let best := List.foldl (fun (best : Option (List Char) × ℚ) kv =>
      let db_words := splitWords (lowerName kv.1)
      let overlap : ℕ := (nubW name_words).countP (fun w => db_words.contains w)
      if overlap = 0 then best
      else
        let union : ℕ := (nubW name_words).length + (nubW db_words).countP (fun w => !(name_words.contains w))
        let score : ℚ := (overlap : ℚ) / (union : ℚ)
        if best.2 < score ∧ 1/2 ≤ score then (some kv.1, score) else best)
      (none, 0) db
    best.1

/-- The static `BIOMARKER_GROUPS` correlation clusters. -/
def BIOMARKER_GROUPS : List (List Char × List (List Char)) :=
  [("body_composition".toList,
    ["body mass index".toList, "bmi".toList, "body fat".toList, "waist".toList,
     "waist circumference".toList, "waist-to-hip".toList, "body weight".toList, "obesity".toList]),
   ("lipids".toList,
    ["cholesterol".toList, "ldl".toList, "hdl".toList, "triglyceride".toList,
     "apolipoprotein".toList, "lipoprotein".toList]),
   ("glucose_metabolism".toList,
    ["glucose".toList, "hba1c".toList, "hemoglobin a1c".toList, "glycated".toList,
     "insulin".toList, "diabetes".toList]),
   ("inflammation".toList,
    ["c-reactive protein".toList, "crp".toList, "white blood cell".toList, "wbc".toList,
     "inflammation".toList, "interleukin".toList]),
   ("blood_cells".toList,
    ["hemoglobin".toList, "hematocrit".toList, "red blood cell".toList, "lymphocyte".toList,
     "platelet".toList, "mean corpuscular".toList]),
   ("cardiovascular".toList,
    ["blood pressure".toList, "heart rate".toList, "pulse".toList, "systolic".toList,
     "diastolic".toList]),
   ("kidney".toList,
    ["creatinine".toList, "urea".toList, "egfr".toList, "albumin".toList, "protein".toList]),
   ("liver".toList,
    ["alt".toList, "ast".toList, "gamma-glutamyl".toList, "ggt".toList, "bilirubin".toList,
     "alkaline phosphatase".toList]),
   ("fitness".toList,
    ["vo2".toList, "exercise capacity".toList, "mets".toList, "grip strength".toList,
     "gait speed".toList, "physical".toList, "peak expiratory".toList]),
   ("hormones".toList,
    ["testosterone".toList, "estrogen".toList, "vitamin d".toList, "thyroid".toList,
     "cortisol".toList])]

/-- `_find_biomarker_group`: first group with a keyword occurring as a
substring of the lower-cased name; otherwise a singleton group keyed by the
name itself. -/
def find_biomarker_group (biomarker_name : List Char) : List Char :=
  let name_lower := lowerName biomarker_name
  match List.find? (fun g => g.2.any (fun keyword => isSubstrB keyword name_lower)) BIOMARKER_GROUPS with
  | some g => g.1
  | none => "independent_".toList ++ biomarker_name

/-- The composite-name filter of `_get_best_realistic_study` stage 1:
no comma, no plus sign, no " and " in the lower-cased name. -/
def isSingleBiomarkerName (name : List Char) : Bool :=
  !(name.contains ',') && !(name.contains '+') && !(isSubstrB " and ".toList (lowerName name))

/-- `_get_best_realistic_study`: staged filtering (single-marker names,
reasonable hazard ratios, complete population data, range or threshold typed
optimal values) then the median survivor by effect magnitude.  The final
indexing is modelled with `List.get?`; the index `length / 2` is always in
range for the nonempty pool, matching the source.  The least-extreme
fallback sorts by `abs(math.log(hazard_ratio))` through the abstract `A.log`. -/
def get_best_realistic_study (A : Analytic) (biomarker_data : BiomarkerData) : Option Study :=
  let all_studies := biomarker_data.all_studies
  let single_biomarker_studies := all_studies.filter (fun s => isSingleBiomarkerName s.biomarker_name)
  if single_biomarker_studies.isEmpty then biomarker_data.best_study
  else
    let reasonable_studies := single_biomarker_studies.filter
      (fun s => decide ((3/10 : ℚ) ≤ s.hazard_ratio) && decide (s.hazard_ratio ≤ 3))
    let reasonable_studies :=
      if reasonable_studies.isEmpty then
        (stableSort (fun a b => decide (|A.log a.hazard_ratio| ≤ |A.log b.hazard_ratio|))
          single_biomarker_studies).take 1
      else reasonable_studies
    let valid_studies := reasonable_studies.filter
      (fun s => truthy s.population.n_subjects && truthy s.population.n_deaths
                && truthy s.population.follow_up_years)
    if valid_studies.isEmpty then biomarker_data.best_study
    else
      let studies_with_ranges := valid_studies.filter (fun s =>
        match s.optimal_value with
        | some ov => ov.otype == "range".toList || ov.otype == "threshold".toList
        | none => false)
      let selection_pool := if studies_with_ranges.isEmpty then valid_studies else studies_with_ranges
      let sorted := stableSort (fun a b => decide (a.effect_magnitude ≤ b.effect_magnitude)) selection_pool
      sorted.get? (selection_pool.length / 2)

/-- `_calculate_survival_rates`: Python truthiness on the three population
fields selects the degraded result; otherwise the exponential model, whose
`math.log` raises when the pooled survival proportion is not positive. -/
def calculate_survival_rates (A : Analytic) (study_data : Study) :
    Except String (Option ℚ × Option ℚ × ℚ) :=
  let pop := study_data.population
  match pop.n_subjects, pop.n_deaths, pop.follow_up_years with
  | some n_subjects, some n_deaths, some follow_up_years =>
    if n_subjects = 0 ∨ n_deaths = 0 ∨ follow_up_years = 0 then
      .ok (none, none, orDefault pop.follow_up_years 10)
    else do
      let overall_survival_rate ← checkedDiv (n_subjects - n_deaths) n_subjects
      let lg ← checkedLog A overall_survival_rate
      let hr := study_data.hazard_ratio
      let baseline_annual_mortality ← checkedDiv (-lg) follow_up_years
      if study_data.effect_direction == "protective".toList then
        let optimal_annual_mortality := baseline_annual_mortality * hr
        let user_annual_mortality := baseline_annual_mortality
        .ok (some (A.exp (-optimal_annual_mortality * follow_up_years)),
             some (A.exp (-user_annual_mortality * follow_up_years)), follow_up_years)
      else
        let optimal_annual_mortality := baseline_annual_mortality
        let user_annual_mortality := baseline_annual_mortality * hr
        .ok (some (A.exp (-optimal_annual_mortality * follow_up_years)),
             some (A.exp (-user_annual_mortality * follow_up_years)), follow_up_years)
  | _, _, _ => .ok (none, none, orDefault study_data.population.follow_up_years 10)

/-- `_calculate_health_score`: 0-100 integer score plus optimality flag from
the optimal-value record; `int()` truncation modelled by `truncInt`. -/
def calculate_health_score (user_value : ℚ) (optimal_data : OptimalValue) :
    Except String (ℤ × Bool) :=
  if optimal_data.otype == "range".toList then
    match optimal_data.range_low, optimal_data.range_high with
    | some range_low, some range_high =>
      if range_low ≤ user_value ∧ user_value ≤ range_high then .ok (100, true)
      else
        let distance := if user_value < range_low then range_low - user_value else user_value - range_high
        let range_width := range_high - range_low
        do
          let dn ← checkedDiv distance range_width
          let distance_normalized := min dn 2
          .ok (truncInt (max 0 (100 - distance_normalized * 40)), false)
    | _, _ => .ok (80, false)
  else if optimal_data.otype == "threshold".toList then
    match optimal_data.value with
    | none => .ok (80, false)
    | some threshold =>
      let direction := optimal_data.direction.getD "higher_is_better".toList
      if direction == "higher_is_better".toList then
        if threshold ≤ user_value then .ok (100, true)
        else do
          let distance_pct ← checkedDiv (threshold - user_value) threshold
          .ok (truncInt (max 0 (100 - distance_pct * 80)), false)
      else
        if user_value ≤ threshold then .ok (100, true)
        else do
          let distance_pct ← checkedDiv (user_value - threshold) threshold
          .ok (truncInt (max 0 (100 - distance_pct * 80)), false)
  else .ok (80, false)

/-- `_estimate_years_gain`: annualized mortality rates from the survival
proportions, conservative caps, finite-horizon expected years, and the final
clamp of the gain to `[0, 10]`. -/
def estimate_years_gain (A : Analytic) (survival_optimal survival_user : Option ℚ)
    (follow_up_years : ℚ) (user_age : ℚ) : Except String ℚ :=
  match survival_optimal, survival_user with
  | some so, some su => do
    let inv1 ← checkedDiv 1 follow_up_years
    let p1 ← checkedPow A so inv1
    let inv2 ← checkedDiv 1 follow_up_years
    let p2 ← checkedPow A su inv2
    let annual_mortality_optimal := min (1 - p1) (1/10)
    let annual_mortality_user := min (1 - p2) (2/10)
    let remaining_years := 85 - user_age
    let expected_years_user ←
      if 1 ≤ annual_mortality_user ∨ annual_mortality_user ≤ 0 then Except.ok (0 : ℚ)
      else do
        let p ← checkedPow A (1 - annual_mortality_user) remaining_years
        checkedDiv (1 - p) annual_mortality_user
    let expected_years_optimal ←
      if 1 ≤ annual_mortality_optimal ∨ annual_mortality_optimal ≤ 0 then Except.ok (0 : ℚ)
      else do
        let p ← checkedPow A (1 - annual_mortality_optimal) remaining_years
        checkedDiv (1 - p) annual_mortality_optimal
    let years_gain := expected_years_optimal - expected_years_user
    .ok (min (max 0 years_gain) 10)
  | _, _ => .ok 0

/-- A single biomarker measurement (input). -/
structure BiomarkerMeasurement where
  name : List Char
  value : ℚ
  unit : List Char
  source : List Char

/-- The display-only `optimal_range` string of an impact, modelled by the
data it is formatted from. -/
inductive RangeDisplay
  | range (lo hi : Option ℚ)
  | threshold (higherIsBetter : Bool) (v : Option ℚ)
  | other (t : List Char)

/-- The impact of one biomarker on longevity. -/
structure LongevityImpact where
  biomarker_name : List Char
  user_value : ℚ
  optimal_range : RangeDisplay
  is_optimal : Bool
  hazard_ratio : ℚ
  study_survival_rate_optimal : ℚ
  study_survival_rate_user : ℚ
  study_follow_up_years : ℚ
  health_score : ℤ
  potential_gain_years : ℚ
  category : List Char

/-- `calculate_biomarker_impact`: normalization, study selection, survival
rates, health score and the capped years gain, assembled into a
`LongevityImpact`.  Returning `Except.ok none` models the code paths that
log a warning and return `None`. -/
def calculate_biomarker_impact (db : Db) (A : Analytic) (measurement : BiomarkerMeasurement)
    (user_age : ℚ) : Except String (Option LongevityImpact) :=
  match normalize_name db measurement.name with
  | none => .ok none
  | some db_name =>
    match dbLookup db db_name with
    | none => .error "KeyError"
    | some biomarker_data =>
      match get_best_realistic_study A biomarker_data with
      | none => .ok none
      | some best_study => do
        let (survival_optimal, survival_user, follow_up_years) ← calculate_survival_rates A best_study
        match best_study.optimal_value with
        | none => .error "KeyError"
        | some ov => do
          let hs ← calculate_health_score measurement.value ov
          let years_gain ←
            if truthy survival_optimal && truthy survival_user then
              estimate_years_gain A survival_optimal survival_user follow_up_years user_age
            else Except.ok (0 : ℚ)
          let optimal_range :=
            if ov.otype == "range".toList then RangeDisplay.range ov.range_low ov.range_high
            else if ov.otype == "threshold".toList then
              RangeDisplay.threshold (ov.direction.getD "higher_is_better".toList == "higher_is_better".toList) ov.value
            else RangeDisplay.other ov.otype
          .ok (some
            { biomarker_name := db_name
              user_value := measurement.value
              optimal_range := optimal_range
              is_optimal := hs.2
              hazard_ratio := best_study.hazard_ratio
              study_survival_rate_optimal := orDefault survival_optimal 0
              study_survival_rate_user := orDefault survival_user 0
              study_follow_up_years := follow_up_years
              health_score := hs.1
              potential_gain_years := years_gain
              category := biomarker_data.category })

/-- Python `max` of a nonempty list of rationals; the `[]` case is never
reached by the callers below (every group carries at least one bonus). -/
def pymax (l : List ℚ) : ℚ :=
  match l with
  | [] => 0
  | h :: t => t.foldl max h

/-- `grouped_bonuses[group].append(years)` with dictionary creation on first
use, preserving insertion order. -/
def insertBonus (k : List Char) (g : ℚ) : List (List Char × List ℚ) → List (List Char × List ℚ)
  | [] => [(k, [g])]
  | (k2, l) :: t => if k2 == k then (k2, l ++ [g]) :: t else (k2, l) :: insertBonus k g t

/-- The `grouped_bonuses` dictionary of `calculate_overall_score`: potential
gains of the non-optimal impacts, grouped by correlation group. -/
def grouped_bonuses (impacts : List LongevityImpact) : List (List Char × List ℚ) :=
  (impacts.filter (fun i => !i.is_optimal)).foldl
    (fun acc i => insertBonus (find_biomarker_group i.biomarker_name) i.potential_gain_years acc) []

/-- The raw (pre-rounding) `total_bonus_years`: the sum over correlation
groups of the maximal potential gain in the group. -/
def total_bonus_years_raw (impacts : List LongevityImpact) : ℚ :=
  ((grouped_bonuses impacts).map (fun kv => pymax kv.2)).sum

/-- The `top_opportunity` summary sub-record of the overall report. -/
structure TopOpportunity where
  biomarker : List Char
  current_score : ℤ
  bonus_years : ℚ
  your_value : ℚ
  target : RangeDisplay

/-- The overall report of `calculate_overall_score` (score-level emoji labels
shortened to their words). -/
structure OverallScoreReport where
  overall_score : ℤ
  score_level : List Char
  total_bonus_years : ℚ
  top_opportunity : Option TopOpportunity
  optimized_count : ℕ
  opportunities_count : ℕ
  user_age : ℚ

/-- The gamified level label from the overall score. -/
def score_level_of (overall_score : ℤ) : List Char :=
  if 90 ≤ overall_score then "LEGENDARY".toList
  else if 80 ≤ overall_score then "DIAMOND".toList
  else if 70 ≤ overall_score then "GOLD".toList
  else if 60 ≤ overall_score then "SILVER".toList
  else if 50 ≤ overall_score then "BRONZE".toList
  else "ROOKIE".toList

/-- `calculate_overall_score`: weighted average health score (weights are the
catalog `max_effect_magnitude`, fetched by a dictionary access that raises on
an unknown name), correlation-grouped bonus years, and the first-maximal top
opportunity.  The empty-impacts early return carries `user_age` in the record
even though the source early-return dictionary omits that key. -/
def calculate_overall_score (db : Db) (impacts : List LongevityImpact) (user_age : ℚ) :
    Except String OverallScoreReport :=
  if impacts.isEmpty then
    .ok { overall_score := 100, score_level := "LEGENDARY".toList, total_bonus_years := 0,
          top_opportunity := none, optimized_count := 0, opportunities_count := 0,
          user_age := user_age }
  else do
    let weighted ← impacts.mapM (fun i =>
      match dbLookup db i.biomarker_name with
      | none => Except.error "KeyError"
      | some bd => Except.ok ((i.health_score : ℚ) * bd.max_effect_magnitude, bd.max_effect_magnitude))
    let weighted_score := (weighted.map (fun p => p.1)).sum
    let total_weight := (weighted.map (fun p => p.2)).sum
    let overall_score : ℤ := if 0 < total_weight then truncInt (weighted_score / total_weight) else 100
    let non_optimal : List LongevityImpact := impacts.filter (fun i => !i.is_optimal)
    let total_bonus_years := total_bonus_years_raw impacts
    let top_opportunity : Option LongevityImpact :=
      match non_optimal with
      | [] => none
      | h :: t => some (t.foldl (fun best i =>
          if best.potential_gain_years < i.potential_gain_years then i else best) h)
    .ok { overall_score := overall_score
          score_level := score_level_of overall_score
          total_bonus_years := round1 total_bonus_years
          top_opportunity := top_opportunity.map (fun t =>
            { biomarker := t.biomarker_name, current_score := t.health_score,
              bonus_years := round1 t.potential_gain_years, your_value := t.user_value,
              target := t.optimal_range })
          optimized_count := (impacts.filter (fun i => i.is_optimal)).length
          opportunities_count := non_optimal.length
          user_age := user_age }

/-! ### `nodes/phenoage_calculator.py`: the PhenoAge engine -/

/-- Caller-supplied biomarkers for the PhenoAge model; a missing dictionary
key and a `None` value are both `none`. -/
structure Biomarkers where
  age_years : Option ℚ := none
  albumin_g_dl : Option ℚ := none
  creatinine_mg_dl : Option ℚ := none
  glucose_mg_dl : Option ℚ := none
  crp_mg_l : Option ℚ := none
  lymphocyte_percent : Option ℚ := none
  mcv_fl : Option ℚ := none
  rdw_percent : Option ℚ := none
  alp_u_l : Option ℚ := none
  wbc_10e3_per_uL : Option ℚ := none

/-- The biomarker dictionary after `fill_missing_biomarkers`: every required
field present. -/
structure FilledBiomarkers where
  age_years : ℚ
  albumin_g_dl : ℚ
  creatinine_mg_dl : ℚ
  glucose_mg_dl : ℚ
  crp_mg_l : ℚ
  lymphocyte_percent : ℚ
  mcv_fl : ℚ
  rdw_percent : ℚ
  alp_u_l : ℚ
  wbc_10e3_per_uL : ℚ
deriving DecidableEq

/-- Keys of the nine optimizable biomarkers (`OPTIMAL_TARGETS.keys()`,
in the insertion order of the source dictionary). -/
inductive MKey
  | albumin | creatinine | glucose | crp | lymph | mcv | rdw | alp | wbc
deriving DecidableEq

/-- The fixed `OPTIMAL_TARGETS` substitution constants. -/
def OPTIMAL_TARGETS : MKey → ℚ
  | .albumin => 4.7
  | .creatinine => 0.8
  | .glucose => 85.0
  | .crp => 0.3
  | .lymph => 35.0
  | .mcv => 90.0
  | .rdw => 12.5
  | .alp => 60.0
  | .wbc => 5.5

/-- `OPTIMAL_TARGETS.keys()` in source order. -/
def OPTIMAL_KEYS : List MKey :=
  [.albumin, .creatinine, .glucose, .crp, .lymph, .mcv, .rdw, .alp, .wbc]

/-- Field read of a caller-supplied dictionary by key. -/
def getB (b : Biomarkers) : MKey → Option ℚ
  | .albumin => b.albumin_g_dl
  | .creatinine => b.creatinine_mg_dl
  | .glucose => b.glucose_mg_dl
  | .crp => b.crp_mg_l
  | .lymph => b.lymphocyte_percent
  | .mcv => b.mcv_fl
  | .rdw => b.rdw_percent
  | .alp => b.alp_u_l
  | .wbc => b.wbc_10e3_per_uL

/-- Field read of a filled dictionary by key. -/
def getF (f : FilledBiomarkers) : MKey → ℚ
  | .albumin => f.albumin_g_dl
  | .creatinine => f.creatinine_mg_dl
  | .glucose => f.glucose_mg_dl
  | .crp => f.crp_mg_l
  | .lymph => f.lymphocyte_percent
  | .mcv => f.mcv_fl
  | .rdw => f.rdw_percent
  | .alp => f.alp_u_l
  | .wbc => f.wbc_10e3_per_uL

/-- Field update of a filled dictionary by key. -/
def setF (f : FilledBiomarkers) : MKey → ℚ → FilledBiomarkers
  | .albumin, v => { f with albumin_g_dl := v }
  | .creatinine, v => { f with creatinine_mg_dl := v }
  | .glucose, v => { f with glucose_mg_dl := v }
  | .crp, v => { f with crp_mg_l := v }
  | .lymph, v => { f with lymphocyte_percent := v }
  | .mcv, v => { f with mcv_fl := v }
  | .rdw, v => { f with rdw_percent := v }
  | .alp, v => { f with alp_u_l := v }
  | .wbc, v => { f with wbc_10e3_per_uL := v }

/-- View a filled dictionary as a caller dictionary with every key present. -/
def FilledBiomarkers.toB (f : FilledBiomarkers) : Biomarkers :=
  { age_years := some f.age_years
    albumin_g_dl := some f.albumin_g_dl
    creatinine_mg_dl := some f.creatinine_mg_dl
    glucose_mg_dl := some f.glucose_mg_dl
    crp_mg_l := some f.crp_mg_l
    lymphocyte_percent := some f.lymphocyte_percent
    mcv_fl := some f.mcv_fl
    rdw_percent := some f.rdw_percent
    alp_u_l := some f.alp_u_l
    wbc_10e3_per_uL := some f.wbc_10e3_per_uL }

/-- `fill_missing_biomarkers`: `age_years` is required; every other missing
(or `None`) biomarker is replaced by its `OPTIMAL_TARGETS` constant. -/
def fill_missing_biomarkers (b : Biomarkers) : Except String FilledBiomarkers :=
  match b.age_years with
  | none => .error "age_years is required and cannot be assumed"
  | some age =>
    .ok { age_years := age
          albumin_g_dl := b.albumin_g_dl.getD (OPTIMAL_TARGETS .albumin)
          creatinine_mg_dl := b.creatinine_mg_dl.getD (OPTIMAL_TARGETS .creatinine)
          glucose_mg_dl := b.glucose_mg_dl.getD (OPTIMAL_TARGETS .glucose)
          crp_mg_l := b.crp_mg_l.getD (OPTIMAL_TARGETS .crp)
          lymphocyte_percent := b.lymphocyte_percent.getD (OPTIMAL_TARGETS .lymph)
          mcv_fl := b.mcv_fl.getD (OPTIMAL_TARGETS .mcv)
          rdw_percent := b.rdw_percent.getD (OPTIMAL_TARGETS .rdw)
          alp_u_l := b.alp_u_l.getD (OPTIMAL_TARGETS .alp)
          wbc_10e3_per_uL := b.wbc_10e3_per_uL.getD (OPTIMAL_TARGETS .wbc) }

/-- The Levine PhenoAge formula on a filled dictionary: linear predictor with
unit conversions, the Gompertz transform with its clamp of `M`, and the final
log.  The two `math.log` call sites that can raise are `log(crp_conv)` and
`log(inner)`; `log(1.0 - M)` is safe after the clamp. -/
def compute_phenoage_filled (A : Analytic) (b : FilledBiomarkers) : Except String ℚ := do
  let albumin_conv := b.albumin_g_dl * 10.0
  let creatinine_conv := b.creatinine_mg_dl * 88.401
  let glucose_conv := b.glucose_mg_dl * 0.0555
  let crp_conv := b.crp_mg_l * 0.1
  let log_crp ← checkedLog A crp_conv
  let xb := -19.9067
    + (-0.0336) * albumin_conv
    + 0.0095 * creatinine_conv
    + 0.1953 * glucose_conv
    + 0.0954 * log_crp
    + (-0.0120) * b.lymphocyte_percent
    + 0.0268 * b.mcv_fl
    + 0.3306 * b.rdw_percent
    + 0.00188 * b.alp_u_l
    + 0.0554 * b.wbc_10e3_per_uL
    + 0.0804 * b.age_years
  let M := 1 - A.exp ((-1.51714) * A.exp xb / 0.0076927)
  let M := min (max M 0.000000001) (1 - 0.000000001)
  let log_one_minus_M ← checkedLog A (1 - M)
  let inner := (-0.00553) * log_one_minus_M
  let log_inner ← checkedLog A inner
  .ok (141.50225 + log_inner / 0.09165)

/-- `compute_phenoage`: fill then evaluate the Levine formula. -/
def compute_phenoage (A : Analytic) (b : Biomarkers) : Except String ℚ := do
  let f ← fill_missing_biomarkers b
  compute_phenoage_filled A f

/-- `build_improved_biomarkers` on a filled dictionary: every optimizable
key is set to its target (age is not an `OPTIMAL_TARGETS` key). -/
def build_improved_biomarkers (f : FilledBiomarkers) : FilledBiomarkers :=
  OPTIMAL_KEYS.foldl (fun acc k => setF acc k (OPTIMAL_TARGETS k)) f

/-- Result record of `compute_years_gained`. -/
structure YearsGainedResult where
  biological_age_now : ℚ
  biological_age_target : ℚ
  years_biological_gained : ℚ
  per_biomarker_contributions : List (MKey × ℚ)

/-- The per-biomarker contribution loop of `compute_years_gained`: only keys
the caller supplied and whose filled value is not already the target are
re-scored with that single key swapped to its target. -/
def contribLoop (A : Analytic) (b : Biomarkers) (f : FilledBiomarkers) (ba_now : ℚ) :
    List MKey → Except String (List (MKey × ℚ))
  | [] => .ok []
  | k :: ks =>
    if (getB b k).isNone then contribLoop A b f ba_now ks
    else if getF f k = OPTIMAL_TARGETS k then contribLoop A b f ba_now ks
    else do
      let ba_single ← compute_phenoage A (setF f k (OPTIMAL_TARGETS k)).toB
      let rest ← contribLoop A b f ba_now ks
      .ok ((k, max 0 (ba_now - ba_single)) :: rest)

/-- `compute_years_gained`: current and all-optimal phenotypic ages, the
clamped total gain, and the sorted positive per-biomarker contributions,
each rounded to two decimals in the returned record. -/
def compute_years_gained (A : Analytic) (b : Biomarkers) : Except String YearsGainedResult := do
  let f ← fill_missing_biomarkers b
  let ba_now ← compute_phenoage A f.toB
  let ba_target ← compute_phenoage A (build_improved_biomarkers f).toB
  let years_gained_total := max 0 (ba_now - ba_target)
  let contributions ← contribLoop A b f ba_now OPTIMAL_KEYS
  let sorted := stableSort (fun x y => decide (y.2 ≤ x.2)) contributions
  let per_biomarker := (sorted.filter (fun x => decide (0 < x.2))).map (fun x => (x.1, round2 x.2))
  .ok { biological_age_now := round2 ba_now
        biological_age_target := round2 ba_target
        years_biological_gained := round2 years_gained_total
        per_biomarker_contributions := per_biomarker }

/-! ### Concrete instances for counterexamples and witnesses -/

/-- A model of `math.log` is faithful on `(0, 1)` when it is negative there;
this is the only analytic fact the success of the PhenoAge formula uses. -/
def LogNegOnUnit (A : Analytic) : Prop := ∀ x : ℚ, 0 < x → x < 1 → A.log x < 0

/-- A simple analytic instance (`log x = x - 1` is negative on `(0,1)`). -/
def A1 : Analytic := { exp := fun _ => 1, log := fun x => x - 1, pow := fun _ _ => 1 }

/-- The linear predictor `xb` produced by the Levine formula when every
biomarker except glucose sits at its optimal target, the age is 40, and
`log(crp_conv)` evaluates to `log_crp`. -/
def c5xb (glucose log_crp : ℚ) : ℚ :=
  -19.9067
    + (-0.0336) * (4.7 * 10.0)
    + 0.0095 * (0.8 * 88.401)
    + 0.1953 * (glucose * 0.0555)
    + 0.0954 * log_crp
    + (-0.0120) * 35.0
    + 0.0268 * 90.0
    + 0.3306 * 12.5
    + 0.00188 * 60.0
    + 0.0554 * 5.5
    + 0.0804 * 40

/-- Explicit exponential table for the C5 counterexample; increasing on the
four arguments it is ever applied to, hence consistent with a monotone
exponential. -/
def c5exp (q : ℚ) : ℚ :=
  if q = c5xb 100 (-5) then 2
  else if q = c5xb 85 (-5) then 1
  else if q = (-1.51714) * 2 / 0.0076927 then 1/4
  else if q = (-1.51714) * 1 / 0.0076927 then 1/2
  else 0

/-- Explicit logarithm table for the C5 counterexample; increasing, and
negative on `(0,1)`, on the five arguments it is ever applied to, hence
consistent with a monotone logarithm. -/
def c5log (q : ℚ) : ℚ :=
  if q = 0.3 * 0.1 then -5
  else if q = 1/4 then -2
  else if q = 1/2 then -1
  else if q = (-0.00553) * (-2) then (1.016 - 141.50225) * 0.09165
  else if q = (-0.00553) * (-1) then (1.002 - 141.50225) * 0.09165
  else 0

/-- The analytic instance of the C5 counterexample. -/
def A5 : Analytic := { exp := c5exp, log := c5log, pow := fun _ _ => 1 }

/-- C5 counterexample input: age 40, glucose 100, everything else missing. -/
def b5 : Biomarkers := { age_years := some 40, glucose_mg_dl := some 100 }

/-- The result `compute_years_gained` returns on the C5 counterexample:
unrounded ages 1.016 and 1.002, so the rounded fields are 1.02, 1.00 and
round2(0.014) = 0.01. -/
def r5 : YearsGainedResult :=
  { biological_age_now := 51/50
    biological_age_target := 1
    years_biological_gained := 1/100
    per_biomarker_contributions := [(MKey.glucose, 1/100)] }

/-- C7 counterexample input: age supplied, CRP supplied as zero. -/
def b7 : Biomarkers := { age_years := some 40, crp_mg_l := some 0 }

/-- C7 scenario input: only the age supplied. -/
def b40 : Biomarkers := { age_years := some 40 }

/-- A study whose cohort has as many deaths as subjects: pooled survival 0. -/
def studyAllDead : Study :=
  { biomarker_name := "glucose".toList, hazard_ratio := 1, effect_magnitude := 0,
    effect_direction := "protective".toList, optimal_value := none,
    population := { n_subjects := some 100, n_deaths := some 100, follow_up_years := some 10 } }

/-- A study with zero recorded deaths: all three population fields present
and non-null, yet `n_deaths` is falsy. -/
def studyZeroDeaths : Study :=
  { biomarker_name := "glucose".toList, hazard_ratio := 1, effect_magnitude := 0,
    effect_direction := "protective".toList, optimal_value := none,
    population := { n_subjects := some 100, n_deaths := some 0, follow_up_years := some 10 } }

/-- A fully well-formed single-biomarker study. -/
def studyGood : Study :=
  { biomarker_name := "ldl".toList, hazard_ratio := 1/2, effect_magnitude := 0.6931,
    effect_direction := "protective".toList,
    optimal_value := some { otype := "range".toList, range_low := some 50, range_high := some 100 },
    population := { n_subjects := some 100, n_deaths := some 40, follow_up_years := some 10 } }

/-- A composite (two-marker) study, also recorded as the catalog best study. -/
def compositeStudy : Study :=
  { biomarker_name := "ldl, hdl".toList, hazard_ratio := 5, effect_magnitude := 1.6,
    effect_direction := "protective".toList, optimal_value := none,
    population := { n_subjects := none, n_deaths := none, follow_up_years := none } }

/-- Catalog entry whose only study is composite; the precomputed best study
is that same composite study. -/
def compositeBD : BiomarkerData :=
  { category := "lipids".toList, max_effect_magnitude := 1.6,
    best_study := some compositeStudy, all_studies := [compositeStudy] }

/-- Catalog entry with one good study. -/
def goodBD : BiomarkerData :=
  { category := "lipids".toList, max_effect_magnitude := 1,
    best_study := some studyGood, all_studies := [studyGood] }

/-- One-entry evidence database for the C10 witness. -/
def db10 : Db := [("ldl".toList, goodBD)]

/-- Catalog entry used by the C6 instances (only its weight matters). -/
def bd6 : BiomarkerData :=
  { category := "c".toList, max_effect_magnitude := 1, best_study := none, all_studies := [] }

/-- One-entry evidence database for the C6 instances. -/
def db6 : Db := [("x".toList, bd6)]

/-- A non-optimal impact with potential gain 0.06 years in a singleton
correlation group (the name "x" matches no group keyword). -/
def impact6 : LongevityImpact :=
  { biomarker_name := "x".toList, user_value := 5,
    optimal_range := RangeDisplay.other "d".toList, is_optimal := false,
    hazard_ratio := 1, study_survival_rate_optimal := 0.9, study_survival_rate_user := 0.8,
    study_follow_up_years := 10, health_score := 50, potential_gain_years := 3/50,
    category := "c".toList }

/-- The impact computed for an in-range LDL measurement of 75 against `db10`. -/
def impactL75 : LongevityImpact :=
  { biomarker_name := "ldl".toList, user_value := 75,
    optimal_range := RangeDisplay.range (some 50) (some 100), is_optimal := true,
    hazard_ratio := 1/2, study_survival_rate_optimal := 1, study_survival_rate_user := 1,
    study_follow_up_years := 10, health_score := 100, potential_gain_years := 0,
    category := "lipids".toList }

/-- The impact computed for an out-of-range LDL measurement of 200 against
`db10`: only the value-derived fields differ from `impactL75`. -/
def impactL200 : LongevityImpact :=
  { biomarker_name := "ldl".toList, user_value := 200,
    optimal_range := RangeDisplay.range (some 50) (some 100), is_optimal := false,
    hazard_ratio := 1/2, study_survival_rate_optimal := 1, study_survival_rate_user := 1,
    study_follow_up_years := 10, health_score := 20, potential_gain_years := 0,
    category := "lipids".toList }

/-! ### Helper lemmas -/
-- prototype of the lemma layer, appended to defs
/-- Bind inversion for `Except`. -/
theorem bind_eq_ok {α β : Type} {x : Except String α} {g : α → Except String β} {r : β} :
    (x >>= g) = .ok r ↔ ∃ a, x = .ok a ∧ g a = .ok r := by
  cases x <;> simp [Bind.bind, Except.bind]

/-- Reduction of a bind on a success value. -/
theorem ok_bind {α β : Type} (a : α) (g : α → Except String β) :
    (Except.ok a >>= g : Except String β) = g a := rfl

/-- Reduction of a bind on an error value. -/
theorem err_bind {α β : Type} (e : String) (g : α → Except String β) :
    (Except.error e >>= g : Except String β) = Except.error e := rfl

/-- The clamped `M` of the PhenoAge formula stays strictly below 1. -/
theorem clamp_lt_one (M : ℚ) : 0 < 1 - min (max M 0.000000001) (1 - 0.000000001) := by
  have h := min_le_right (max M 0.000000001) ((1:ℚ) - 0.000000001)
  linarith

/-- The clamped `M` of the PhenoAge formula stays strictly positive. -/
theorem clamp_pos (M : ℚ) : 0 < min (max M 0.000000001) (1 - 0.000000001) := by
  have h1 : (0.000000001 : ℚ) ≤ max M 0.000000001 := le_max_right _ _
  have h2 : (0.000000001 : ℚ) ≤ 1 - 0.000000001 := by norm_num
  have h := le_min h1 h2
  linarith

/-- Under a faithful logarithm, the argument of the final `log` of the
PhenoAge formula is strictly positive. -/
theorem inner_pos (A : Analytic) (hA : LogNegOnUnit A) (M : ℚ) :
    0 < (-0.00553) * A.log (1 - min (max M 0.000000001) (1 - 0.000000001)) := by
  have hlog : A.log (1 - min (max M 0.000000001) (1 - 0.000000001)) < 0 := by
    apply hA
    · exact clamp_lt_one M
    · have := clamp_pos M
      linarith
  have : (0:ℚ) < (-(-0.00553)) * (-(A.log (1 - min (max M 0.000000001) (1 - 0.000000001)))) := by
    apply mul_pos <;> [norm_num; linarith]
  linarith [this]

/-- With a positive (filled) CRP and a faithful logarithm, the Levine formula
succeeds. -/
theorem compute_phenoage_filled_isOk (A : Analytic) (hA : LogNegOnUnit A)
    (f : FilledBiomarkers) (hc : 0 < f.crp_mg_l) :
    ∃ r, compute_phenoage_filled A f = .ok r := by
  unfold compute_phenoage_filled
  have h1 : (0:ℚ) < f.crp_mg_l * 0.1 := by
    have : (0:ℚ) < (0.1 : ℚ) := by norm_num
    exact mul_pos hc this
  simp only [checkedLog]
  rw [if_pos h1, ok_bind, if_pos (clamp_lt_one _), ok_bind, if_pos (inner_pos A hA _), ok_bind]
  exact ⟨_, rfl⟩

/-- With a non-positive CRP the Levine formula raises at `log(crp_conv)`. -/
theorem compute_phenoage_filled_err (A : Analytic) (f : FilledBiomarkers)
    (hc : f.crp_mg_l ≤ 0) :
    compute_phenoage_filled A f = .error "math domain error" := by
  unfold compute_phenoage_filled
  have h1 : ¬ (0:ℚ) < f.crp_mg_l * 0.1 := by nlinarith
  simp only [checkedLog]
  rw [if_neg h1, err_bind]

/-- Success characterization of `compute_phenoage`: the computation returns a
value exactly when the age is supplied and the CRP, if supplied, is positive. -/
theorem compute_phenoage_ok_iff (A : Analytic) (hA : LogNegOnUnit A) (b : Biomarkers) :
    (∃ r, compute_phenoage A b = .ok r) ↔
      (b.age_years ≠ none ∧ ∀ c ∈ b.crp_mg_l, 0 < c) := by
  unfold compute_phenoage
  cases hage : b.age_years with
  | none =>
    simp [fill_missing_biomarkers, hage, err_bind, Bind.bind, Except.bind]
  | some a =>
    have hfill : fill_missing_biomarkers b =
        .ok { age_years := a
              albumin_g_dl := b.albumin_g_dl.getD (OPTIMAL_TARGETS .albumin)
              creatinine_mg_dl := b.creatinine_mg_dl.getD (OPTIMAL_TARGETS .creatinine)
              glucose_mg_dl := b.glucose_mg_dl.getD (OPTIMAL_TARGETS .glucose)
              crp_mg_l := b.crp_mg_l.getD (OPTIMAL_TARGETS .crp)
              lymphocyte_percent := b.lymphocyte_percent.getD (OPTIMAL_TARGETS .lymph)
              mcv_fl := b.mcv_fl.getD (OPTIMAL_TARGETS .mcv)
              rdw_percent := b.rdw_percent.getD (OPTIMAL_TARGETS .rdw)
              alp_u_l := b.alp_u_l.getD (OPTIMAL_TARGETS .alp)
              wbc_10e3_per_uL := b.wbc_10e3_per_uL.getD (OPTIMAL_TARGETS .wbc) } := by
      unfold fill_missing_biomarkers
      rw [hage]
    rw [hfill, ok_bind]
    cases hcrp : b.crp_mg_l with
    | none =>
      constructor
      · intro _
        simp [hage, hcrp]
      · intro _
        apply compute_phenoage_filled_isOk A hA
        simp [hcrp, OPTIMAL_TARGETS]
        norm_num
    | some c =>
      constructor
      · rintro ⟨r, hr⟩
        refine ⟨by simp [hage], ?_⟩
        intro x hx
        simp [hcrp] at hx
        subst hx
        by_contra hle
        push_neg at hle
        rw [compute_phenoage_filled_err A _ (by simp [hcrp]; exact hle)] at hr
        exact Except.noConfusion hr
      · rintro ⟨-, hpos⟩
        apply compute_phenoage_filled_isOk A hA
        simp [hcrp]
        exact hpos c (by simp [hcrp])

/-- Any value returned by `_estimate_years_gain` lies in `[0, 10]`: the final
clamp `min (max 0 years_gain) 10` dominates every success path. -/
theorem estimate_years_gain_bounds (A : Analytic) (so su : Option ℚ)
    (f age r : ℚ) (h : estimate_years_gain A so su f age = .ok r) :
    0 ≤ r ∧ r ≤ 10 := by
  unfold estimate_years_gain at h
  cases so with
  | none =>
    simp only [Except.ok.injEq] at h
    subst h
    norm_num
  | some so' =>
    cases su with
    | none =>
      simp only [Except.ok.injEq] at h
      subst h
      norm_num
    | some su' =>
      simp only at h
      repeat' first
        | (rw [bind_eq_ok] at h; obtain ⟨_, -, h⟩ := h)
        | (split_ifs at h)
      all_goals simp only [Except.ok.injEq] at h
      all_goals subst h
      all_goals exact ⟨le_min (le_max_left _ _) (by norm_num), min_le_right _ _⟩

/-- Bounds for the deterministic scorer on a catalog entry with
`0 < acceptable_low < optimal_low` and `optimal_high < acceptable_high`:
every branch succeeds with a score in `[0, 100]`. -/
theorem scoreWithRanges_bounds (ranges : BRange) (value : ℚ)
    (h1 : 0 < ranges.acceptable_low)
    (h2 : ranges.acceptable_low < ranges.optimal_low)
    (h3 : ranges.optimal_high < ranges.acceptable_high)
    (h4 : ranges.optimal_low ≤ ranges.optimal_high) :
    ∃ s, scoreWithRanges ranges value = .ok s ∧ 0 ≤ s ∧ s ≤ 100 := by
  unfold scoreWithRanges
  split_ifs with hopt hlow hacc hhigh hacch
  · exact ⟨100, rfl, by norm_num⟩
  · -- below optimal, inside acceptable band
    have hd : ranges.optimal_low - ranges.acceptable_low ≠ 0 := by linarith
    rw [checkedDiv, if_neg hd, ok_bind]
    refine ⟨_, rfl, ?_, ?_⟩
    · have := le_max_right (100 - (ranges.optimal_low - value) / (ranges.optimal_low - ranges.acceptable_low) * 30) (70:ℚ)
      linarith
    · apply max_le _ (by norm_num)
      have hq : 0 ≤ (ranges.optimal_low - value) / (ranges.optimal_low - ranges.acceptable_low) := by
        apply div_nonneg <;> linarith
      nlinarith
  · -- below the acceptable band
    have hd : ranges.acceptable_low ≠ 0 := by linarith
    rw [checkedDiv, if_neg hd, ok_bind]
    refine ⟨_, rfl, le_max_right _ _, ?_⟩
    apply max_le _ (by norm_num)
    have hq : 0 ≤ (ranges.acceptable_low - value) / ranges.acceptable_low := by
      apply div_nonneg <;> linarith
    have hmin : (0:ℚ) ≤ min ((ranges.acceptable_low - value) / ranges.acceptable_low * 50) 70 := by
      apply le_min _ (by norm_num)
      nlinarith
    linarith
  · -- above optimal, inside acceptable band
    have hd : ranges.acceptable_high - ranges.optimal_high ≠ 0 := by linarith
    rw [checkedDiv, if_neg hd, ok_bind]
    refine ⟨_, rfl, ?_, ?_⟩
    · have := le_max_right (100 - (value - ranges.optimal_high) / (ranges.acceptable_high - ranges.optimal_high) * 30) (70:ℚ)
      linarith
    · apply max_le _ (by norm_num)
      have hq : 0 ≤ (value - ranges.optimal_high) / (ranges.acceptable_high - ranges.optimal_high) := by
        apply div_nonneg <;> linarith
      nlinarith
  · -- above the acceptable band
    have hd : ranges.acceptable_high ≠ 0 := by linarith
    rw [checkedDiv, if_neg hd, ok_bind]
    refine ⟨_, rfl, le_max_right _ _, ?_⟩
    apply max_le _ (by norm_num)
    have hq : 0 ≤ (value - ranges.acceptable_high) / ranges.acceptable_high := by
      apply div_nonneg <;> linarith
    have hmin : (0:ℚ) ≤ min ((value - ranges.acceptable_high) / ranges.acceptable_high * 50) 70 := by
      apply le_min _ (by norm_num)
      nlinarith
    linarith
  · exact ⟨50, rfl, by norm_num⟩

/-- Bounds for the CRP entry (`acceptable_low = 0`) on non-negative inputs:
the division by `acceptable_low` is unreachable. -/
theorem scoreWithRanges_crp_bounds (value : ℚ) (hv : 0 ≤ value) :
    ∃ s, scoreWithRanges ⟨0, 1, 0, 3, 9, false⟩ value = .ok s ∧ 0 ≤ s ∧ s ≤ 100 := by
  unfold scoreWithRanges
  dsimp only
  rcases le_or_lt value 1 with hv1 | hv1
  · rw [if_pos ⟨hv, hv1⟩]
    exact ⟨100, rfl, by norm_num⟩
  · rw [if_neg (by push_neg; intro; linarith), if_neg (by linarith), if_pos (by linarith)]
    rcases le_or_lt value 3 with hv3 | hv3
    · rw [if_pos hv3, checkedDiv, if_neg (by norm_num), ok_bind]
      refine ⟨_, rfl, ?_, ?_⟩
      · have := le_max_right (100 - (value - 1) / (3 - 1) * 30) (70:ℚ)
        linarith
      · apply max_le _ (by norm_num)
        have hq : 0 ≤ (value - 1) / ((3:ℚ) - 1) := by
          apply div_nonneg <;> linarith
        nlinarith
    · rw [if_neg (by linarith), checkedDiv, if_neg (by norm_num), ok_bind]
      refine ⟨_, rfl, le_max_right _ _, ?_⟩
      apply max_le _ (by norm_num)
      have hq : 0 ≤ (value - 3) / (3:ℚ) := by
        apply div_nonneg <;> linarith
      have hmin : (0:ℚ) ≤ min ((value - 3) / 3 * 50) 70 := by
        apply le_min _ (by norm_num)
        nlinarith
      linarith

/-- The degraded result of `_calculate_survival_rates` appears exactly when
one of the three population fields is missing, `None`, or zero (Python
truthiness). -/
theorem survival_rates_degraded_iff (A : Analytic) (s : Study) :
    (∃ fy, calculate_survival_rates A s = .ok (none, none, fy)) ↔
      ¬(truthy s.population.n_subjects = true ∧ truthy s.population.n_deaths = true ∧
        truthy s.population.follow_up_years = true) := by
  unfold calculate_survival_rates
  cases hn : s.population.n_subjects with
  | none => simp [truthy, hn]
  | some n =>
    cases hd : s.population.n_deaths with
    | none => simp [truthy, hn, hd]
    | some d =>
      cases hf : s.population.follow_up_years with
      | none => simp [truthy, hn, hd, hf]
      | some f =>
        simp only [truthy, hn, hd, hf, decide_eq_true_eq]
        by_cases hz : n = 0 ∨ d = 0 ∨ f = 0
        · rw [if_pos hz]
          constructor
          · intro _
            tauto
          · intro _
            exact ⟨_, rfl⟩
        · rw [if_neg hz]
          push_neg at hz
          constructor
          · rintro ⟨fy, hfy⟩
            exfalso
            rw [bind_eq_ok] at hfy
            obtain ⟨osr, -, hfy⟩ := hfy
            rw [bind_eq_ok] at hfy
            obtain ⟨lg, -, hfy⟩ := hfy
            rw [bind_eq_ok] at hfy
            obtain ⟨bm, -, hfy⟩ := hfy
            split_ifs at hfy <;> simp at hfy
          · intro hcon
            exact absurd ⟨hz.1, hz.2.1, hz.2.2⟩ hcon

/-- When all three population fields are present and nonzero and the pooled
survival proportion is positive, `_calculate_survival_rates` returns numeric
rates for both groups. -/
theorem survival_rates_numeric (A : Analytic) (s : Study) (n d f : ℚ)
    (hn : s.population.n_subjects = some n) (hd : s.population.n_deaths = some d)
    (hf : s.population.follow_up_years = some f)
    (hn0 : n ≠ 0) (hd0 : d ≠ 0) (hf0 : f ≠ 0)
    (hpos : 0 < (n - d) / n) :
    ∃ so su, calculate_survival_rates A s = .ok (some so, some su, f) := by
  simp only [calculate_survival_rates, hn, hd, hf]
  rw [if_neg (by tauto), checkedDiv, if_neg hn0, ok_bind, checkedLog, if_pos hpos, ok_bind,
    checkedDiv, if_neg hf0, ok_bind]
  by_cases hdir : (s.effect_direction == "protective".toList) = true
  · rw [if_pos hdir]
    exact ⟨_, _, rfl⟩
  · rw [if_neg hdir]
    exact ⟨_, _, rfl⟩

/-- Whenever the population fields that reach the logarithm are well-behaved,
`_calculate_survival_rates` does not raise. -/
theorem survival_rates_total (A : Analytic) (s : Study)
    (hgood : ∀ n d f : ℚ, s.population.n_subjects = some n → s.population.n_deaths = some d →
      s.population.follow_up_years = some f → n ≠ 0 → d ≠ 0 → f ≠ 0 → 0 < (n - d) / n) :
    ∃ t, calculate_survival_rates A s = .ok t := by
  cases hn : s.population.n_subjects with
  | none => exact ⟨_, by simp only [calculate_survival_rates, hn]; rfl⟩
  | some n =>
    cases hd : s.population.n_deaths with
    | none => exact ⟨_, by simp only [calculate_survival_rates, hn, hd]; rfl⟩
    | some d =>
      cases hf : s.population.follow_up_years with
      | none => exact ⟨_, by simp only [calculate_survival_rates, hn, hd, hf]; rfl⟩
      | some f =>
        by_cases hz : n = 0 ∨ d = 0 ∨ f = 0
        · exact ⟨_, by simp only [calculate_survival_rates, hn, hd, hf]; rw [if_pos hz]⟩

        · push_neg at hz
          obtain ⟨so, su, hres⟩ := survival_rates_numeric A s n d f hn hd hf hz.1 hz.2.1 hz.2.2
            (hgood n d f hn hd hf hz.1 hz.2.1 hz.2.2)
          exact ⟨_, hres⟩

/-- A table of grouped bonuses is well-formed when every group is nonempty
and every recorded gain is non-negative. -/
def GoodTable (t : List (List Char × List ℚ)) : Prop :=
  ∀ kv ∈ t, kv.2 ≠ [] ∧ ∀ g ∈ kv.2, 0 ≤ g

/-- Sum of the per-group maxima of a table. -/
def tableMaxSum (t : List (List Char × List ℚ)) : ℚ :=
  (t.map (fun kv => pymax kv.2)).sum

/-- `insertBonus` preserves well-formedness. -/
theorem insertBonus_good (k : List Char) (g : ℚ) (hg : 0 ≤ g) (t : List (List Char × List ℚ))
    (ht : GoodTable t) : GoodTable (insertBonus k g t) := by
  induction t with
  | nil =>
    intro kv hkv
    simp [insertBonus] at hkv
    subst hkv
    exact ⟨by simp, by simpa using hg⟩
  | cons hd tl ih =>
    obtain ⟨k2, l⟩ := hd
    intro kv hkv
    simp only [insertBonus] at hkv
    by_cases hk : (k2 == k) = true
    · rw [if_pos hk] at hkv
      rcases List.mem_cons.mp hkv with h | h
      · subst h
        refine ⟨by simp, ?_⟩
        intro x hx
        rcases List.mem_append.mp hx with h | h
        · exact (ht ⟨k2, l⟩ (by simp)).2 x h
        · simp at h
          subst h
          exact hg
      · exact ht kv (List.mem_cons_of_mem _ h)
    · rw [if_neg hk] at hkv
      rcases List.mem_cons.mp hkv with h | h
      · subst h
        exact ht ⟨k2, l⟩ (by simp)
      · exact ih (fun kv hkv => ht kv (List.mem_cons_of_mem _ hkv)) kv h

/-- The running maximum of a fold is bounded by the starting point plus the
sum of the remaining (non-negative) entries. -/
theorem foldl_max_le_add_sum (l : List ℚ) (a : ℚ) (ha : 0 ≤ a) (hl : ∀ g ∈ l, 0 ≤ g) :
    l.foldl max a ≤ a + l.sum := by
  induction l generalizing a with
  | nil => simp
  | cons x xs ih =>
    simp only [List.foldl_cons, List.sum_cons]
    have hx : 0 ≤ x := hl x (by simp)
    have h1 : xs.foldl max (max a x) ≤ max a x + xs.sum :=
      ih (max a x) (le_trans ha (le_max_left _ _)) (fun g hg => hl g (List.mem_cons_of_mem _ hg))
    have h2 : max a x ≤ a + x := max_le (by linarith) (by linarith)
    linarith

/-- The starting point never exceeds a running maximum. -/
theorem le_foldl_max (a : ℚ) (l : List ℚ) : a ≤ l.foldl max a := by
  induction l generalizing a with
  | nil => simp
  | cons x xs ih =>
    simp only [List.foldl_cons]
    exact le_trans (le_max_left a x) (ih (max a x))

/-- `pymax` of a nonempty list of non-negative entries is non-negative. -/
theorem pymax_nonneg (l : List ℚ) (hne : l ≠ []) (hl : ∀ g ∈ l, 0 ≤ g) : 0 ≤ pymax l := by
  cases l with
  | nil => exact absurd rfl hne
  | cons h t =>
    have hh : 0 ≤ h := hl h (by simp)
    exact le_trans hh (le_foldl_max h t)

/-- Appending one entry raises `pymax` by at most that entry, on non-negative
lists. -/
theorem pymax_append_le (l : List ℚ) (g : ℚ) (hne : l ≠ []) (hl : ∀ x ∈ l, 0 ≤ x)
    (hg : 0 ≤ g) : pymax (l ++ [g]) ≤ pymax l + g := by
  cases l with
  | nil => exact absurd rfl hne
  | cons h t =>
    simp only [pymax, List.cons_append, List.foldl_append, List.foldl_cons, List.foldl_nil]
    have h0 : 0 ≤ t.foldl max h := by
      have hh : 0 ≤ h := hl h (by simp)
      calc (0:ℚ) ≤ h := hh
        _ ≤ t.foldl max h := le_foldl_max h t
    exact max_le (by linarith) (by linarith)

/-- `insertBonus` raises the per-group-maximum sum by at most the inserted
gain, on well-formed tables. -/
theorem tableMaxSum_insertBonus (k : List Char) (g : ℚ) (hg : 0 ≤ g)
    (t : List (List Char × List ℚ)) (ht : GoodTable t) :
    tableMaxSum (insertBonus k g t) ≤ tableMaxSum t + g := by
  induction t with
  | nil =>
    simp [tableMaxSum, insertBonus, pymax]
  | cons hd tl ih =>
    obtain ⟨k2, l⟩ := hd
    simp only [insertBonus]
    by_cases hk : (k2 == k) = true
    · rw [if_pos hk]
      simp only [tableMaxSum, List.map_cons, List.sum_cons]
      have hl := ht ⟨k2, l⟩ (by simp)
      have := pymax_append_le l g hl.1 hl.2 hg
      linarith
    · rw [if_neg hk]
      simp only [tableMaxSum, List.map_cons, List.sum_cons]
      have := ih (fun kv hkv => ht kv (List.mem_cons_of_mem _ hkv))
      simp only [tableMaxSum] at this
      linarith

/-- Folding a list of non-optimal impacts into a bonus table raises the
per-group-maximum sum by at most the total of their gains. -/
theorem fold_insertBonus_le (l : List LongevityImpact) (t : List (List Char × List ℚ))
    (ht : GoodTable t) (hl : ∀ i ∈ l, 0 ≤ i.potential_gain_years) :
    tableMaxSum (l.foldl (fun acc i =>
        insertBonus (find_biomarker_group i.biomarker_name) i.potential_gain_years acc) t) ≤
      tableMaxSum t + (l.map (fun i => i.potential_gain_years)).sum := by
  induction l generalizing t with
  | nil => simp
  | cons i is ih =>
    simp only [List.foldl_cons, List.map_cons, List.sum_cons]
    have hi : 0 ≤ i.potential_gain_years := hl i (by simp)
    have h1 := ih (insertBonus (find_biomarker_group i.biomarker_name) i.potential_gain_years t)
      (insertBonus_good _ _ hi t ht)
      (fun j hj => hl j (List.mem_cons_of_mem _ hj))
    have h2 := tableMaxSum_insertBonus (find_biomarker_group i.biomarker_name)
      i.potential_gain_years hi t ht
    linarith

/-- Filtering cannot increase the sum of non-negative gains. -/
theorem filter_gain_sum_le (l : List LongevityImpact) (p : LongevityImpact → Bool)
    (hl : ∀ i ∈ l, 0 ≤ i.potential_gain_years) :
    ((l.filter p).map (fun i => i.potential_gain_years)).sum ≤
      (l.map (fun i => i.potential_gain_years)).sum := by
  induction l with
  | nil => simp
  | cons i is ih =>
    have hi : 0 ≤ i.potential_gain_years := hl i (by simp)
    have ih2 := ih (fun j hj => hl j (List.mem_cons_of_mem _ hj))
    by_cases hp : p i = true
    · simp only [List.filter_cons, hp, if_true, List.map_cons, List.sum_cons]
      linarith
    · simp only [List.filter_cons, hp, if_false, List.map_cons, List.sum_cons,
        Bool.false_eq_true]
      linarith

/-- The raw grouped bonus total never exceeds the plain sum of non-negative
potential gains. -/
theorem total_bonus_years_raw_le (impacts : List LongevityImpact)
    (himp : ∀ i ∈ impacts, 0 ≤ i.potential_gain_years) :
    total_bonus_years_raw impacts ≤ (impacts.map (fun i => i.potential_gain_years)).sum := by
  unfold total_bonus_years_raw grouped_bonuses
  have h1 : tableMaxSum ((impacts.filter (fun i => !i.is_optimal)).foldl (fun acc i =>
      insertBonus (find_biomarker_group i.biomarker_name) i.potential_gain_years acc) []) ≤
      tableMaxSum [] + ((impacts.filter (fun i => !i.is_optimal)).map
        (fun i => i.potential_gain_years)).sum := by
    apply fold_insertBonus_le
    · intro kv hkv
      simp at hkv
    · intro i hi
      exact himp i (List.mem_of_mem_filter hi)
  have h2 := filter_gain_sum_le impacts (fun i => !i.is_optimal) himp
  simp only [tableMaxSum] at h1 ⊢
  simp only [List.map_nil, List.sum_nil, zero_add] at h1
  linarith

/-- Any study selected through the filtering pipeline (not the catalog
fallback) carries a single-biomarker name; the fallback paths return the raw
`best_study`. -/
theorem get_best_realistic_study_single_or_fallback (A : Analytic) (bd : BiomarkerData)
    (s : Study) (h : get_best_realistic_study A bd = some s) :
    isSingleBiomarkerName s.biomarker_name = true ∨ bd.best_study = some s := by
  unfold get_best_realistic_study at h
  simp only at h
  split_ifs at h
  all_goals try exact Or.inr h
  all_goals left
  all_goals have hmem := List.get?_mem h
  all_goals rw [mem_stableSort] at hmem
  all_goals simp only [List.mem_filter] at hmem
  all_goals first
    | exact hmem.1.1.2
    | exact hmem.1.1.1.2
    | (have h2 := List.take_subset _ _ hmem.1
       rw [mem_stableSort] at h2
       exact (List.mem_filter.mp h2).2)
    | (have h2 := List.take_subset _ _ hmem.1.1
       rw [mem_stableSort] at h2
       exact (List.mem_filter.mp h2).2)

/-- C10: the potential gain computed by `calculate_biomarker_impact` does not
depend on the measured value: only the name selects the study, and the gain
is derived from the study alone, so two impacts produced for measurements
that differ only in value (and unit and source tags) carry the same
`potential_gain_years`. -/
theorem impact_gain_value_independent (db : Db) (A : Analytic) (name u1 s1 u2 s2 : List Char)
    (v1 v2 age : ℚ) (o1 o2 : Option LongevityImpact)
    (h1 : calculate_biomarker_impact db A ⟨name, v1, u1, s1⟩ age = .ok o1)
    (h2 : calculate_biomarker_impact db A ⟨name, v2, u2, s2⟩ age = .ok o2) :
    o1.map (fun i => i.potential_gain_years) = o2.map (fun i => i.potential_gain_years) := by
  unfold calculate_biomarker_impact at h1 h2
  cases hn : normalize_name db name with
  | none =>
    simp only [hn, Except.ok.injEq] at h1 h2
    rw [← h1, ← h2]
  | some db_name =>
    simp only [hn] at h1 h2
    cases hbd : dbLookup db db_name with
    | none =>
      simp only [hbd] at h1
      exact absurd h1 (by simp)
    | some bd =>
      simp only [hbd] at h1 h2
      cases hstudy : get_best_realistic_study A bd with
      | none =>
        simp only [hstudy, Except.ok.injEq] at h1 h2
        rw [← h1, ← h2]
      | some st =>
        simp only [hstudy] at h1 h2
        cases hsr : calculate_survival_rates A st with
        | error e =>
          simp only [hsr, err_bind] at h1
          exact absurd h1 (by simp)
        | ok t =>
          obtain ⟨so, su, fy⟩ := t
          simp only [hsr, ok_bind] at h1 h2
          cases hov : st.optimal_value with
          | none =>
            simp only [hov] at h1
            exact absurd h1 (by simp)
          | some ov =>
            simp only [hov] at h1 h2
            cases hh1 : calculate_health_score v1 ov with
            | error e =>
              simp only [hh1, err_bind] at h1
              exact absurd h1 (by simp)
            | ok p1 =>
              cases hh2 : calculate_health_score v2 ov with
              | error e =>
                simp only [hh2, err_bind] at h2
                exact absurd h2 (by simp)
              | ok p2 =>
                simp only [hh1, hh2, ok_bind] at h1 h2
                by_cases hc : (truthy so && truthy su) = true
                · rw [if_pos hc] at h1 h2
                  cases hyg : estimate_years_gain A so su fy age with
                  | error e =>
                    simp only [hyg, err_bind] at h1
                    exact absurd h1 (by simp)
                  | ok g =>
                    simp only [hyg, ok_bind, Except.ok.injEq] at h1 h2
                    rw [← h1, ← h2]
                    rfl
                · rw [if_neg hc] at h1 h2
                  simp only [ok_bind, Except.ok.injEq] at h1 h2
                  rw [← h1, ← h2]
                  rfl

/-- C5 (amended): any successful `compute_years_gained` satisfies the
roundtrip identity before rounding: the returned `years_biological_gained`
is `round2 (max 0 (x - y))` for the unrounded phenotypic ages `x`, `y` whose
independent roundings are returned as `biological_age_now` and
`biological_age_target`.  On the rounded fields themselves the identity can
be off by one hundredth (see the counterexample). -/
theorem compute_years_gained_structure (A : Analytic) (b : Biomarkers) (r : YearsGainedResult)
    (h : compute_years_gained A b = .ok r) :
    ∃ f x y, fill_missing_biomarkers b = .ok f ∧
      compute_phenoage A f.toB = .ok x ∧
      compute_phenoage A (build_improved_biomarkers f).toB = .ok y ∧
      r.biological_age_now = round2 x ∧
      r.biological_age_target = round2 y ∧
      r.years_biological_gained = round2 (max 0 (x - y)) := by
  unfold compute_years_gained at h
  rw [bind_eq_ok] at h
  obtain ⟨f, hf, h⟩ := h
  rw [bind_eq_ok] at h
  obtain ⟨x, hx, h⟩ := h
  rw [bind_eq_ok] at h
  obtain ⟨y, hy, h⟩ := h
  rw [bind_eq_ok] at h
  obtain ⟨c, hc, h⟩ := h
  simp only [Except.ok.injEq] at h
  exact ⟨f, x, y, hf, hx, hy, by rw [← h], by rw [← h], by rw [← h]⟩

/-- A faithful logarithm model: `A1.log x = x - 1` is negative on `(0,1)`. -/
theorem logNeg_A1 : LogNegOnUnit A1 := by
  intro x h1 h2
  show A1.log x < 0
  simp only [A1]
  linarith

set_option maxHeartbeats 2000000 in
/-- C9 (amended): for every biomarker name and real value, the deterministic
scorer terminates with a score in `[0, 100]` unless the biomarker is CRP and
the value is negative — the one case that reaches the below-acceptable
branch with `acceptable_low = 0`, where the penalty division raises
`ZeroDivisionError` (see the counterexample). -/
theorem c9_score_in_range_unless_crp_negative (value : ℚ) (biomarker : List Char)
    (h : biomarker = "crp".toList → 0 ≤ value) :
    ∃ s, calculate_biomarker_score value biomarker = .ok s ∧ 0 ≤ s ∧ s ≤ 100 := by
  unfold calculate_biomarker_score BIOMARKER_RANGES
  split_ifs with h1 h2 h3 h4 h5 h6 h7 h8 h9 h10
  · exact scoreWithRanges_bounds _ value (by norm_num) (by norm_num) (by norm_num) (by norm_num)
  · exact scoreWithRanges_bounds _ value (by norm_num) (by norm_num) (by norm_num) (by norm_num)
  · exact scoreWithRanges_bounds _ value (by norm_num) (by norm_num) (by norm_num) (by norm_num)
  · exact scoreWithRanges_bounds _ value (by norm_num) (by norm_num) (by norm_num) (by norm_num)
  · exact scoreWithRanges_bounds _ value (by norm_num) (by norm_num) (by norm_num) (by norm_num)
  · exact scoreWithRanges_crp_bounds value (h (eq_of_beq h6))
  · exact scoreWithRanges_bounds _ value (by norm_num) (by norm_num) (by norm_num) (by norm_num)
  · exact scoreWithRanges_bounds _ value (by norm_num) (by norm_num) (by norm_num) (by norm_num)
  · exact scoreWithRanges_bounds _ value (by norm_num) (by norm_num) (by norm_num) (by norm_num)
  · exact scoreWithRanges_bounds _ value (by norm_num) (by norm_num) (by norm_num) (by norm_num)
  · exact ⟨50, rfl, by norm_num, by norm_num⟩

/-- C6 (amended): for impacts with non-negative potential gains, the raw
(pre-rounding) grouped bonus total never exceeds the plain sum of
`potential_gain_years` over all impacts, and the reported
`total_bonus_years` is that raw total rounded to one decimal (so the
reported value itself may exceed the sum by up to 0.05, and equality of the
raw total with the sum is not characterized by singleton grouping, since
optimal impacts are excluded from the bonus computation). -/
theorem c6_total_bonus_le_gain_sum (db : Db) (impacts : List LongevityImpact) (age : ℚ)
    (rep : OverallScoreReport) (h : calculate_overall_score db impacts age = .ok rep)
    (hpos : ∀ i ∈ impacts, 0 ≤ i.potential_gain_years) :
    rep.total_bonus_years = round1 (total_bonus_years_raw impacts) ∧
    total_bonus_years_raw impacts ≤ (impacts.map (fun i => i.potential_gain_years)).sum := by
  refine ⟨?_, total_bonus_years_raw_le impacts hpos⟩
  unfold calculate_overall_score at h
  by_cases hne : impacts.isEmpty = true
  · rw [if_pos hne] at h
    simp only [Except.ok.injEq] at h
    have hnil : impacts = [] := List.isEmpty_iff.mp hne
    subst hnil
    rw [← h]
    show (0:ℚ) = round1 (total_bonus_years_raw [])
    norm_num [total_bonus_years_raw, grouped_bonuses, round1, roundHalfEven]
  · rw [if_neg hne] at h
    rw [bind_eq_ok] at h
    obtain ⟨w, hw, h⟩ := h
    simp only [Except.ok.injEq] at h
    rw [← h]

/-! ### Claim theorems, witnesses and counterexamples -/

/-- C1 (amended): a glucose measurement of 105 mg/dL exceeds the acceptable
band (65-100), so it is scored by the above-acceptable branch
`max(30 - min((105-100)/100*50, 70), 0)` and yields 27.5, not 70. -/
theorem c1_glucose_105_above_acceptable :
    ¬((105:ℚ) ≤ 100) ∧
    calculate_biomarker_score 105 "glucose".toList =
      .ok (max (30 - min ((105 - 100) / 100 * 50) 70) 0) ∧
    calculate_biomarker_score 105 "glucose".toList = .ok (55/2) := by
  refine ⟨by norm_num, ?_, ?_⟩ <;>
    norm_num [calculate_biomarker_score, BIOMARKER_RANGES, scoreWithRanges, checkedDiv,
      Except.bind, bind]

/-- C1 counterexample: the claim says glucose 105 is scored by the
in-acceptable branch with result 70; the scorer actually returns 27.5. -/
theorem c1_glucose_105_not_70 :
    calculate_biomarker_score 105 "glucose".toList = .ok (55/2) ∧ (55:ℚ)/2 ≠ 70 := by
  refine ⟨?_, by norm_num⟩
  norm_num [calculate_biomarker_score, BIOMARKER_RANGES, scoreWithRanges, checkedDiv,
    Except.bind, bind]

/-- C2 (amended): under a faithful logarithm the PhenoAge computation returns
a value whenever the age is supplied and any supplied CRP is positive, and
the survival-rate computation returns a value whenever every complete nonzero
population record implies a positive pooled survival proportion.  (A supplied
CRP of zero or a cohort with as many deaths as subjects still raises: see the
counterexample.) -/
theorem c2_no_raise_on_guarded_inputs :
    (∀ (A : Analytic), LogNegOnUnit A → ∀ b : Biomarkers, b.age_years ≠ none →
      (∀ c ∈ b.crp_mg_l, 0 < c) → ∃ r, compute_phenoage A b = .ok r) ∧
    (∀ (A : Analytic) (s : Study),
      (∀ n d f : ℚ, s.population.n_subjects = some n → s.population.n_deaths = some d →
        s.population.follow_up_years = some f → n ≠ 0 → d ≠ 0 → f ≠ 0 → 0 < (n - d) / n) →
      ∃ t, calculate_survival_rates A s = .ok t) := by
  constructor
  · intro A hA b hage hcrp
    exact (compute_phenoage_ok_iff A hA b).mpr ⟨hage, hcrp⟩
  · exact survival_rates_total

/-- C2 witness: concrete guarded inputs on which both computations succeed. -/
theorem c2_no_raise_witness :
    (∃ r, compute_phenoage A1 b40 = .ok r) ∧
    (∃ t, calculate_survival_rates A1 studyGood = .ok t) := by
  constructor
  · exact c2_no_raise_on_guarded_inputs.1 A1 logNeg_A1 b40 (by simp [b40]) (by simp [b40])
  · apply c2_no_raise_on_guarded_inputs.2 A1 studyGood
    intro n d f hn hd hf _ _ _
    simp only [studyGood, Option.some.injEq] at hn hd hf
    subst hn; subst hd
    norm_num

/-- C2 counterexample: a study whose cohort has as many deaths as subjects
drives the pooled survival proportion to 0 and the survival-rate computation
raises `ValueError: math domain error` instead of degrading. -/
theorem c2_raise_counterexample :
    calculate_survival_rates A1 studyAllDead = .error "math domain error" := by
  norm_num [calculate_survival_rates, studyAllDead, checkedDiv, checkedLog, A1, orDefault,
    Except.bind, bind]

/-- C7 (amended): the PhenoAge computation returns a value if and only if
`age_years` is supplied and any supplied CRP is positive; so it raises not
only when the age is missing but also for a supplied CRP of zero. -/
theorem c7_phenoage_raises_iff (A : Analytic) (hA : LogNegOnUnit A) (b : Biomarkers) :
    (∃ r, compute_phenoage A b = .ok r) ↔
      (b.age_years ≠ none ∧ ∀ c ∈ b.crp_mg_l, 0 < c) :=
  compute_phenoage_ok_iff A hA b

/-- C7 witness: the scenario call with only `age_years = 40` supplied
succeeds (every other marker is filled with its optimal target). -/
theorem c7_phenoage_witness :
    b40.age_years ≠ none ∧ (∃ r, compute_phenoage A1 b40 = .ok r) := by
  refine ⟨by simp [b40], ?_⟩
  exact (c7_phenoage_raises_iff A1 logNeg_A1 b40).mpr ⟨by simp [b40], by simp [b40]⟩

/-- C7 counterexample: with the age supplied and CRP supplied as 0, the
computation still raises, refuting "raises iff age_years is missing". -/
theorem c7_crp_zero_counterexample :
    b7.age_years = some 40 ∧ compute_phenoage A1 b7 = .error "math domain error" := by
  refine ⟨rfl, ?_⟩
  norm_num [compute_phenoage, b7, fill_missing_biomarkers, compute_phenoage_filled, checkedLog,
    OPTIMAL_TARGETS, Except.bind, bind]

/-- C8 (amended): the degraded result `(none, none, follow_up or 10)` appears
exactly when one of the three population fields is missing, `None` or zero
(Python truthiness); when all three are present and nonzero and the pooled
survival is positive, numeric rates are returned for both groups. -/
theorem c8_survival_degraded_characterization :
    (∀ (A : Analytic) (s : Study),
      (∃ fy, calculate_survival_rates A s = .ok (none, none, fy)) ↔
        ¬(truthy s.population.n_subjects = true ∧ truthy s.population.n_deaths = true ∧
          truthy s.population.follow_up_years = true)) ∧
    (∀ (A : Analytic) (s : Study) (n d f : ℚ), s.population.n_subjects = some n →
      s.population.n_deaths = some d → s.population.follow_up_years = some f →
      n ≠ 0 → d ≠ 0 → f ≠ 0 → 0 < (n - d) / n →
      ∃ so su, calculate_survival_rates A s = .ok (some so, some su, f)) :=
  ⟨survival_rates_degraded_iff, survival_rates_numeric⟩

/-- C8 witness: a complete nonzero population record with surviving subjects
yields numeric rates. -/
theorem c8_survival_witness :
    ∃ so su, calculate_survival_rates A1 studyGood = .ok (some so, some su, 10) :=
  c8_survival_degraded_characterization.2 A1 studyGood 100 40 10 rfl rfl rfl
    (by norm_num) (by norm_num) (by norm_num) (by norm_num)

/-- C8 counterexample: all three population fields present and non-null, yet
`n_deaths = 0` is falsy and the degraded result is returned, refuting
"whenever all three are present it returns numeric rates". -/
theorem c8_zero_deaths_counterexample :
    studyZeroDeaths.population.n_subjects = some 100 ∧
    studyZeroDeaths.population.n_deaths = some 0 ∧
    studyZeroDeaths.population.follow_up_years = some 10 ∧
    calculate_survival_rates A1 studyZeroDeaths = .ok (none, none, 10) := by
  refine ⟨rfl, rfl, rfl, ?_⟩
  norm_num [calculate_survival_rates, studyZeroDeaths, orDefault]

/-- C3 (amended): a selected study has a composite-free name unless it is the
catalog's raw `best_study` fallback, which is not filtered. -/
theorem c3_selected_study_single_or_best (A : Analytic) (bd : BiomarkerData) (s : Study)
    (h : get_best_realistic_study A bd = some s) :
    isSingleBiomarkerName s.biomarker_name = true ∨ bd.best_study = some s :=
  get_best_realistic_study_single_or_fallback A bd s h

/-- C3 witness: a well-formed single study flows through the pipeline and the
selected study satisfies the disjunction. -/
theorem c3_selected_study_witness :
    get_best_realistic_study A1 goodBD = some studyGood ∧
    (isSingleBiomarkerName studyGood.biomarker_name = true ∨
      goodBD.best_study = some studyGood) := by
  have h : get_best_realistic_study A1 goodBD = some studyGood := by
    simp [get_best_realistic_study, goodBD, studyGood, isSingleBiomarkerName, isSubstrB,
      isPrefixB, lowerName, truthy, stableSort]
    norm_num
    simp [insort]
  exact ⟨h, c3_selected_study_single_or_best A1 goodBD studyGood h⟩

/-- C3 counterexample: when the composite filter eliminates every study, the
selector falls back to the raw `best_study`, whose name contains a comma,
refuting "never returns a composite name, including fallback paths". -/
theorem c3_composite_fallback_counterexample :
    get_best_realistic_study A1 compositeBD = some compositeStudy ∧
    compositeStudy.biomarker_name.contains ',' = true := by
  constructor
  · simp [get_best_realistic_study, compositeBD, compositeStudy, isSingleBiomarkerName,
      isSubstrB, isPrefixB, lowerName]
  · simp [compositeStudy]

/-- C4 (amended): every value the years-gained estimator returns lies in
`[0, 10]` (the missing-survival path returns 0 and every success path ends in
the clamp); a zero follow-up raises instead of returning a value. -/
theorem c4_years_gained_in_range (A : Analytic) (so su : Option ℚ) (f age r : ℚ)
    (h : estimate_years_gain A so su f age = .ok r) : 0 ≤ r ∧ r ≤ 10 :=
  estimate_years_gain_bounds A so su f age r h

/-- C4 witness: the missing-survival path returns 0, which is in `[0, 10]`. -/
theorem c4_years_gained_witness :
    estimate_years_gain A1 none none 5 50 = .ok 0 ∧ (0 ≤ (0:ℚ) ∧ (0:ℚ) ≤ 10) :=
  ⟨rfl, c4_years_gained_in_range A1 none none 5 50 0 rfl⟩

/-- C4 counterexample: with follow-up 0 the estimator raises
`ZeroDivisionError` at `1 / follow_up_years`, so not every combination of
inputs produces a value in `[0, 10]`. -/
theorem c4_zero_follow_up_counterexample :
    estimate_years_gain A1 (some (1/2)) (some (1/2)) 0 50 = .error "float division by zero" := by
  norm_num [estimate_years_gain, checkedDiv, Except.bind, bind]

/-- C5 witness: the structural identity instantiated on a concrete run. -/
theorem c5_years_gained_witness :
    compute_years_gained A5 b5 = .ok r5 ∧
    (∃ f x y, fill_missing_biomarkers b5 = .ok f ∧
      compute_phenoage A5 f.toB = .ok x ∧
      compute_phenoage A5 (build_improved_biomarkers f).toB = .ok y ∧
      r5.biological_age_now = round2 x ∧
      r5.biological_age_target = round2 y ∧
      r5.years_biological_gained = round2 (max 0 (x - y))) := by
  have h : compute_years_gained A5 b5 = .ok r5 := by
    norm_num [compute_years_gained, b5, r5, A5, fill_missing_biomarkers, OPTIMAL_TARGETS,
      compute_phenoage, compute_phenoage_filled, FilledBiomarkers.toB, build_improved_biomarkers,
      OPTIMAL_KEYS, setF, getF, getB, contribLoop, checkedLog, c5exp, c5log, c5xb,
      stableSort, insort, round2, roundHalfEven, Except.bind, bind]
    unfold Int.fract
    norm_num
  exact ⟨h, compute_years_gained_structure A5 b5 r5 h⟩

/-- C5 counterexample: on the returned (rounded) fields the claimed identity
fails: `years_biological_gained = 0.01` but
`max 0 (biological_age_now - biological_age_target) = 0.02`. -/
theorem c5_rounding_counterexample :
    compute_years_gained A5 b5 = .ok r5 ∧
    r5.years_biological_gained ≠
      max 0 (r5.biological_age_now - r5.biological_age_target) := by
  constructor
  · norm_num [compute_years_gained, b5, r5, A5, fill_missing_biomarkers, OPTIMAL_TARGETS,
      compute_phenoage, compute_phenoage_filled, FilledBiomarkers.toB, build_improved_biomarkers,
      OPTIMAL_KEYS, setF, getF, getB, contribLoop, checkedLog, c5exp, c5log, c5xb,
      stableSort, insort, round2, roundHalfEven, Except.bind, bind]
    unfold Int.fract
    norm_num
  · norm_num [r5]

/-- C6 witness: the bound instantiated on a concrete report. -/
theorem c6_total_bonus_witness :
    calculate_overall_score db6 [impact6] 50 =
      .ok ⟨50, "BRONZE".toList, 1/10,
           some ⟨"x".toList, 50, 1/10, 5, RangeDisplay.other "d".toList⟩, 0, 1, 50⟩ ∧
    ((1:ℚ)/10 = round1 (total_bonus_years_raw [impact6]) ∧
      total_bonus_years_raw [impact6] ≤
        ([impact6].map (fun i => i.potential_gain_years)).sum) := by
  have h : calculate_overall_score db6 [impact6] 50 =
      .ok ⟨50, "BRONZE".toList, 1/10,
           some ⟨"x".toList, 50, 1/10, 5, RangeDisplay.other "d".toList⟩, 0, 1, 50⟩ := by
    simp [calculate_overall_score, db6, impact6, bd6, dbLookup, total_bonus_years_raw,
      grouped_bonuses, find_biomarker_group, BIOMARKER_GROUPS, isSubstrB, isPrefixB, lowerName,
      insertBonus, pymax, truncInt, round1, roundHalfEven, score_level_of, Except.bind, bind,
      Except.map, List.mapM, List.mapM.loop, pure, Except.pure]
    norm_num [truncInt, round1, roundHalfEven]
    unfold Int.fract
    norm_num
  have hb := c6_total_bonus_le_gain_sum db6 [impact6] 50 _ h
    (by intro i hi; simp only [List.mem_singleton] at hi; subst hi; norm_num [impact6])
  exact ⟨h, hb⟩

/-- C6 counterexample: one non-optimal singleton-group impact with gain 0.06
is reported as `total_bonus_years = 0.1` after rounding, which exceeds the
plain sum of gains 0.06 — and the grouping is singleton, so the claimed
equality case fails as well. -/
theorem c6_rounding_counterexample :
    (calculate_overall_score db6 [impact6] 50).map (fun r => r.total_bonus_years) =
      .ok (1/10) ∧
    ¬((1:ℚ)/10 ≤ ([impact6].map (fun i => i.potential_gain_years)).sum) := by
  constructor
  · simp [calculate_overall_score, db6, impact6, bd6, dbLookup, total_bonus_years_raw,
      grouped_bonuses, find_biomarker_group, BIOMARKER_GROUPS, isSubstrB, isPrefixB, lowerName,
      insertBonus, pymax, truncInt, round1, roundHalfEven, score_level_of, Except.bind, bind,
      Except.map, List.mapM, List.mapM.loop, pure, Except.pure]
    norm_num [truncInt, round1, roundHalfEven]
    unfold Int.fract
    norm_num
  · norm_num [impact6]

/-- C9 witness: the scorer on glucose 105 returns a value in `[0, 100]`. -/
theorem c9_score_witness :
    ∃ s, calculate_biomarker_score 105 "glucose".toList = .ok s ∧ 0 ≤ s ∧ s ≤ 100 :=
  c9_score_in_range_unless_crp_negative 105 "glucose".toList (fun _ => by norm_num)

/-- C9 counterexample: a negative CRP measurement reaches the below-acceptable
branch, whose penalty divides by `acceptable_low = 0`, raising
`ZeroDivisionError` instead of returning a score. -/
theorem c9_crp_negative_counterexample :
    calculate_biomarker_score (-1) "crp".toList = .error "float division by zero" := by
  simp [calculate_biomarker_score, BIOMARKER_RANGES]
  norm_num [scoreWithRanges, checkedDiv, Except.bind, bind]


/-- C10 witness: two LDL measurements with values 75 and 200 produce impacts
with different health scores and optimality flags but identical potential
gains. -/
theorem c10_gain_witness :
    calculate_biomarker_impact db10 A1 ⟨"ldl".toList, 75, "u".toList, "t".toList⟩ 50 =
      .ok (some impactL75) ∧
    calculate_biomarker_impact db10 A1 ⟨"ldl".toList, 200, "u".toList, "t".toList⟩ 50 =
      .ok (some impactL200) ∧
    (some impactL75).map (fun i => i.potential_gain_years) =
      (some impactL200).map (fun i => i.potential_gain_years) := by
  have hnorm : normalize_name db10 "ldl".toList = some "ldl".toList := by
    simp [normalize_name, db10, stripName, lowerName]
  have hlook : dbLookup db10 "ldl".toList = some goodBD := by
    simp [dbLookup, db10]
  have hsel : get_best_realistic_study A1 goodBD = some studyGood := by
    simp [get_best_realistic_study, goodBD, studyGood, isSingleBiomarkerName, isSubstrB,
      isPrefixB, lowerName, truthy, stableSort]
    norm_num
    simp [insort]
  have hsr : calculate_survival_rates A1 studyGood = .ok (some 1, some 1, 10) := by
    norm_num [calculate_survival_rates, studyGood, checkedDiv, checkedLog, A1, orDefault,
      Except.bind, bind]
  have hyg : estimate_years_gain A1 (some 1) (some 1) 10 50 = .ok 0 := by
    norm_num [estimate_years_gain, checkedDiv, checkedPow, A1, Except.bind, bind]
  have hov : studyGood.optimal_value =
      some ⟨"range".toList, some 50, some 100, none, none⟩ := rfl
  have h1 : calculate_biomarker_impact db10 A1 ⟨"ldl".toList, 75, "u".toList, "t".toList⟩ 50 =
      .ok (some impactL75) := by
    have hhs : calculate_health_score 75 ⟨"range".toList, some 50, some 100, none, none⟩ =
        .ok (100, true) := by
      norm_num [calculate_health_score]
    simp only [calculate_biomarker_impact, hnorm, hlook, hsel, hsr, hov, hhs, hyg,
      truthy, orDefault, Except.bind, bind]
    norm_num [studyGood, goodBD, impactL75, hyg]
  have h2 : calculate_biomarker_impact db10 A1 ⟨"ldl".toList, 200, "u".toList, "t".toList⟩ 50 =
      .ok (some impactL200) := by
    have hhs : calculate_health_score 200 ⟨"range".toList, some 50, some 100, none, none⟩ =
        .ok (20, false) := by
      norm_num [calculate_health_score, checkedDiv, truncInt, Except.bind, bind]
    simp only [calculate_biomarker_impact, hnorm, hlook, hsel, hsr, hov, hhs, hyg,
      truthy, orDefault, Except.bind, bind]
    norm_num [studyGood, goodBD, impactL200, hyg]
  exact ⟨h1, h2, impact_gain_value_independent db10 A1 "ldl".toList "u".toList "t".toList
    "u".toList "t".toList 75 200 50 (some impactL75) (some impactL200) h1 h2⟩
